import Mathlib

/-!
Verification of the resource lifecycle logic of the viettelidc terraform
provider.  The DNS zone resource (create / read / update / delete handlers,
their polling configurations and the import-ID parser) is embedded as pure
Lean functions over an explicit client oracle; the auxiliary server and
kubernetes resources are embedded directly.  Remote calls are recorded in a
call log so that claims about which client operations run (and with which
polling configuration) can be stated and proved.
-/

namespace ViettelDNS

/-- Polling configuration, from the StateChangeConf literals in the source.
Durations are in seconds.  The Refresh callback is kept out of the record:
the wait oracles of the client receive the configuration and the zone ID. -/
structure StateChangeConf where
  Target : List String
  Pending : List String
  Timeout : Nat
  Delay : Nat
  MinTimeout : Nat
deriving DecidableEq

/-- Errors returned by the remote client; NotFound is distinguishable, as
gophercloud ErrDefault404 is in the source. -/
inductive GoErr where
  | notFound
  | other (msg : String)
deriving DecidableEq

/-- Message text carried by an error value. -/
def GoErr.message : GoErr → String
  | .notFound => "Resource not found"
  | .other m => m

/-- A DNS zone as returned by the zones API (fields the handlers use). -/
structure Zone where
  ID : String
  Name : String
  Email : String
  Description : String
  TTL : Int
  ztype : String
  Attributes : List (String × String)
  Masters : List String
  ProjectID : String
deriving DecidableEq

/-- The terraform ResourceData visible to the DNS zone handlers: the stored
attributes, the per-operation timeouts (seconds), and the HasChange flags
the Update handler consults for the four mutable fields. -/
structure ResourceData where
  id : String
  name : String
  email : String
  ttl : Int
  description : String
  masters : List String
  attributes : List (String × String)
  region : String
  projectID : String
  ztype : String
  valueSpecs : List (String × String)
  disableStatusCheck : Bool
  timeoutCreate : Nat
  timeoutUpdate : Nat
  timeoutDelete : Nat
  changeEmail : Bool
  changeTTL : Bool
  changeMasters : Bool
  changeDescription : Bool
deriving DecidableEq

/-- zones.CreateOpts as filled by the create handler. -/
structure CreateOpts where
  Name : String
  ztype : String
  TTL : Int
  Email : String
  Description : String
  Attributes : List (String × String)
  Masters : List String
deriving DecidableEq

/-- ZoneCreateOpts: CreateOpts plus the value_specs map. -/
structure ZoneCreateOpts where
  opts : CreateOpts
  ValueSpecs : List (String × String)
deriving DecidableEq

/-- zones.UpdateOpts; the create handler starts from the zero value and sets
only the fields whose HasChange flag is on. -/
structure UpdateOpts where
  Email : String
  TTL : Int
  Masters : List String
  Description : Option String
deriving DecidableEq

/-- Zero value of UpdateOpts, as var updateOpts zones.UpdateOpts in Go. -/
def UpdateOpts.zero : UpdateOpts :=
  { Email := "", TTL := 0, Masters := [], Description := none }

/-- One remote interaction performed by a handler.  The two poll
constructors record which SDK wait entry point ran: the create handler wraps
StateChangeConf.WaitForState in resource.RetryContext, while the update and
delete handlers call StateChangeConf.WaitForStateContext directly. -/
inductive Call where
  | create
  | read
  | update
  | delete
  | pollRetryWrapped (conf : StateChangeConf)
  | pollDirect (conf : StateChangeConf)
deriving DecidableEq

/-- The polling configuration carried by a poll call, if any. -/
def Call.pollConf : Call → Option StateChangeConf
  | .pollRetryWrapped conf => some conf
  | .pollDirect conf => some conf
  | _ => none

/-- Whether a call is a direct (WaitForStateContext) poll. -/
def Call.isPollDirect : Call → Bool
  | .pollDirect _ => true
  | _ => false

/-- Whether a call is a RetryContext-wrapped poll. -/
def Call.isPollRetryWrapped : Call → Bool
  | .pollRetryWrapped _ => true
  | _ => false

/-- Polling configurations occurring in a call log. -/
def pollConfsOf (l : List Call) : List StateChangeConf :=
  l.filterMap Call.pollConf

/-- The client oracle: outcomes of config.DNSV2Client and
dnsClientSetAuthHeader (repository helpers outside the embedded file,
modelled as possible failures), of the four zones API calls, and of the two
wait entry points used while polling. -/
structure Client where
  region : String
  clientErr : Option String
  authErr : Option String
  createZone : ZoneCreateOpts → Except GoErr Zone
  getZone : String → Except GoErr Zone
  updateZone : String → UpdateOpts → Except GoErr Zone
  deleteZone : String → Option GoErr
  waitRetryWrapped : StateChangeConf → String → Option GoErr
  waitDirect : StateChangeConf → String → Option GoErr

/-- GetRegion repository helper (outside the embedded file): the region
attribute if set, otherwise the region of the provider configuration. -/
def GetRegion (d : ResourceData) (c : Client) : String :=
  if d.region = "" then c.region else d.region

/-- Modelled from the spec: the repository helper CheckDeleted is not under
src/.  Per the spec, a NotFound error is treated as the resource being gone
(the ID is cleared and no error is reported), while any other error is
surfaced with the phase message and the underlying cause. -/
def CheckDeleted (d : ResourceData) (e : GoErr) (msg : String) :
    ResourceData × Option String :=
  match e with
  | .notFound => ({ d with id := "" }, none)
  | .other m => (d, some (msg ++ ": " ++ m))

/-- The StateChangeConf literal of the create handler. -/
def createStateConf (timeoutCreate : Nat) : StateChangeConf :=
  { Target := ["ACTIVE"], Pending := ["PENDING"],
    Timeout := timeoutCreate, Delay := 5, MinTimeout := 3 }

/-- The StateChangeConf literal of the update handler. -/
def updateStateConf (timeoutUpdate : Nat) : StateChangeConf :=
  { Target := ["ACTIVE"], Pending := ["PENDING"],
    Timeout := timeoutUpdate, Delay := 5, MinTimeout := 3 }

/-- The StateChangeConf literal of the delete handler. -/
def deleteStateConf (timeoutDelete : Nat) : StateChangeConf :=
  { Target := ["DELETED"], Pending := ["ACTIVE", "PENDING"],
    Timeout := timeoutDelete, Delay := 5, MinTimeout := 3 }

/-- Default per-operation timeout: schema.DefaultTimeout(10 * time.Minute),
in seconds. -/
def defaultZoneTimeout : Nat := 10 * 60

/-- The ZoneCreateOpts the create handler builds from the resource data. -/
def zoneCreateOptsOf (d : ResourceData) : ZoneCreateOpts :=
  { opts := { Name := d.name, ztype := d.ztype, TTL := d.ttl,
              Email := d.email, Description := d.description,
              Attributes := d.attributes, Masters := d.masters },
    ValueSpecs := d.valueSpecs }

/-- The read handler: create the client, set the auth header, Get the zone
by the current ID (a failure goes through CheckDeleted), then refresh every
stored attribute from the returned zone.  The result is the diagnostics
(none on success), the updated resource data and the call log. -/
def resourceDNSZoneV2Read (d : ResourceData) (c : Client) :
    Option String × ResourceData × List Call :=
  match c.clientErr with
  | some e => (some ("Error creating OpenStack DNS client: " ++ e), d, [])
  | none =>
    match c.authErr with
    | some e => (some ("Error setting dns client auth headers: " ++ e), d, [])
    | none =>
      match c.getZone d.id with
      | Except.error e =>
          let r := CheckDeleted d e "Error retrieving openstack_dns_zone_v2"
          (r.2, r.1, [Call.read])
      | Except.ok n =>
          (none,
           { d with name := n.Name, email := n.Email,
                    description := n.Description, ttl := n.TTL,
                    ztype := n.ztype, attributes := n.Attributes,
                    masters := n.Masters, region := GetRegion d c,
                    projectID := n.ProjectID },
           [Call.read])

/-- The create handler: create the client, build the create options, set the
auth header, call zones.Create; on success, if disable_status_check is set,
assign the ID and return the read handler; otherwise run the RetryContext
wrapped wait on the create StateChangeConf and only on success assign the ID
and return the read handler.  On a wait failure the diagnostic uses the
current (still unassigned) ID and the ID is not set. -/
def resourceDNSZoneV2Create (d : ResourceData) (c : Client) :
    Option String × ResourceData × List Call :=
  match c.clientErr with
  | some e => (some ("Error creating OpenStack DNS client: " ++ e), d, [])
  | none =>
    let createOpts := zoneCreateOptsOf d
    match c.authErr with
    | some e => (some ("Error setting dns client auth headers: " ++ e), d, [])
    | none =>
      match c.createZone createOpts with
      | Except.error e =>
          (some ("Error creating openstack_dns_zone_v2: " ++ e.message), d,
           [Call.create])
      | Except.ok n =>
          if d.disableStatusCheck then
            let d1 := { d with id := n.ID }
            let r := resourceDNSZoneV2Read d1 c
            (r.1, r.2.1, Call.create :: r.2.2)
          else
            let stateConf := createStateConf d.timeoutCreate
            match c.waitRetryWrapped stateConf n.ID with
            | some e =>
                (some ("Error waiting for openstack_dns_zone_v2 " ++ d.id ++
                       " to become active: " ++ e.message),
                 d, [Call.create, Call.pollRetryWrapped stateConf])
            | none =>
                let d1 := { d with id := n.ID }
                let r := resourceDNSZoneV2Read d1 c
                (r.1, r.2.1,
                 Call.create :: Call.pollRetryWrapped stateConf :: r.2.2)

/-- The HasChange block of the update handler: starting from the zero
UpdateOpts, set each of email, ttl, masters and description whose HasChange
flag is on, tracking whether anything changed. -/
def updateOptsChanged (d : ResourceData) : UpdateOpts × Bool :=
  let p1 :=
    if d.changeEmail then ({ UpdateOpts.zero with Email := d.email }, true)
    else (UpdateOpts.zero, false)
  let p2 := if d.changeTTL then ({ p1.1 with TTL := d.ttl }, true) else p1
  let p3 :=
    if d.changeMasters then ({ p2.1 with Masters := d.masters }, true)
    else p2
  if d.changeDescription then
    ({ p3.1 with Description := some d.description }, true)
  else p3

/-- The update handler: create the client, build UpdateOpts from the zero
value setting each field whose HasChange flag is on; if nothing changed,
return the read handler without calling Update; otherwise set the auth
header, call zones.Update, then (unless disable_status_check) wait directly
on the update StateChangeConf, and finish with the read handler. -/
def resourceDNSZoneV2Update (d : ResourceData) (c : Client) :
    Option String × ResourceData × List Call :=
  match c.clientErr with
  | some e => (some ("Error creating OpenStack DNS client: " ++ e), d, [])
  | none =>
    let updateOpts := (updateOptsChanged d).1
    let changed := (updateOptsChanged d).2
    if changed = false then
      resourceDNSZoneV2Read d c
    else
      match c.authErr with
      | some e =>
          (some ("Error setting dns client auth headers: " ++ e), d, [])
      | none =>
        match c.updateZone d.id updateOpts with
        | Except.error e =>
            (some ("Error updating openstack_dns_zone_v2 " ++ d.id ++ ": " ++
                   e.message), d, [Call.update])
        | Except.ok _ =>
            if d.disableStatusCheck then
              let r := resourceDNSZoneV2Read d c
              (r.1, r.2.1, Call.update :: r.2.2)
            else
              let stateConf := updateStateConf d.timeoutUpdate
              match c.waitDirect stateConf d.id with
              | some e =>
                  (some ("Error waiting for openstack_dns_zone_v2 " ++ d.id ++
                         " to become active: " ++ e.message),
                   d, [Call.update, Call.pollDirect stateConf])
              | none =>
                  let r := resourceDNSZoneV2Read d c
                  (r.1, r.2.1,
                   Call.update :: Call.pollDirect stateConf :: r.2.2)

/-- The delete handler: create the client, set the auth header, call
zones.Delete (a failure goes through CheckDeleted, so NotFound is success
and ends the handler); on success, unless disable_status_check, wait
directly on the delete StateChangeConf. -/
def resourceDNSZoneV2Delete (d : ResourceData) (c : Client) :
    Option String × ResourceData × List Call :=
  match c.clientErr with
  | some e => (some ("Error creating OpenStack DNS client: " ++ e), d, [])
  | none =>
    match c.authErr with
    | some e => (some ("Error setting dns client auth headers: " ++ e), d, [])
    | none =>
      match c.deleteZone d.id with
      | some e =>
          let r := CheckDeleted d e "Error deleting openstack_dns_zone_v2"
          (r.2, r.1, [Call.delete])
      | none =>
          if d.disableStatusCheck then
            (none, d, [Call.delete])
          else
            let stateConf := deleteStateConf d.timeoutDelete
            match c.waitDirect stateConf d.id with
            | some e =>
                (some ("Error waiting for openstack_dns_zone_v2 " ++ d.id ++
                       " to become deleted: " ++ e.message),
                 d, [Call.delete, Call.pollDirect stateConf])
            | none =>
                (none, d, [Call.delete, Call.pollDirect stateConf])

/-- State touched by the importer: the import ID string and project_id. -/
structure ImportData where
  id : String
  projectID : String
deriving DecidableEq

/-- The format error of the importer. -/
def importErrMsg (s : String) : String :=
  "unexpected format of ID (" ++ s ++ "), expected zone <id> or <id>:<project_id>"

/-- strings.Split with a single-character separator, on the character list:
every occurrence of the separator splits, empty segments are kept, and the
empty input yields one empty segment. -/
def goSplitChar (sep : Char) : List Char → List (List Char)
  | [] => [[]]
  | c :: rest =>
      match goSplitChar sep rest with
      | [] => [[]]
      | h :: t => if c = sep then [] :: h :: t else (c :: h) :: t

/-- strings.Split of a string on a single-character separator. -/
def goSplit (s : String) (sep : Char) : List String :=
  (goSplitChar sep s.toList).map fun l => String.mk l

/-- The importer StateContext: split the ID on a colon; reject an empty
first segment or more than two segments; with two segments set project_id
to the second; set the resource ID to the first segment. -/
def dnsZoneV2ImportState (d : ImportData) : Except String ImportData :=
  match goSplit d.id ':' with
  | [p0] =>
      if p0 = "" then Except.error (importErrMsg d.id)
      else Except.ok { d with id := p0 }
  | [p0, p1] =>
      if p0 = "" then Except.error (importErrMsg d.id)
      else Except.ok { d with id := p0, projectID := p1 }
  | _ => Except.error (importErrMsg d.id)

/-- Whether an import attempt succeeded. -/
def importOk (d : ImportData) : Bool :=
  match dnsZoneV2ImportState d with
  | Except.ok _ => true
  | Except.error _ => false

end ViettelDNS

namespace ViettelAux

/-- State of the auxiliary server resource. -/
structure ServerData where
  id : String
  uuid_count : String
deriving DecidableEq

/-- Read handler of the server resource: returns nil diagnostics. -/
def resourceServerRead (d : ServerData) : Option String × ServerData :=
  (none, d)

/-- Update handler of the server resource: returns the Read handler. -/
def resourceServerUpdate (d : ServerData) : Option String × ServerData :=
  resourceServerRead d

/-- Delete handler of the server resource: clears the ID, nil diagnostics. -/
def resourceServerDelete (d : ServerData) : Option String × ServerData :=
  (none, { d with id := "" })

/-- State of the auxiliary kubernetes resource. -/
structure KubernetesData where
  id : String
  name : String
  account : String
  metadata : List (String × String)
deriving DecidableEq

/-- Read handler of the kubernetes resource: returns nil diagnostics. -/
def resourceKubernetesRead (d : KubernetesData) : Option String × KubernetesData :=
  (none, d)

/-- Update handler of the kubernetes resource: returns the Read handler. -/
def resourceKubernetesUpdate (d : KubernetesData) : Option String × KubernetesData :=
  resourceKubernetesRead d

/-- Delete handler of the kubernetes resource: clears the ID, nil
diagnostics. -/
def resourceKubernetesDelete (d : KubernetesData) : Option String × KubernetesData :=
  (none, { d with id := "" })

end ViettelAux

namespace ViettelDNS

/-- A concrete zone used by the concrete client oracles. -/
def zoneZ1 : Zone :=
  { ID := "z1", Name := "zone1.example.com.", Email := "admin@example.com",
    Description := "", TTL := 300, ztype := "PRIMARY", Attributes := [],
    Masters := [], ProjectID := "p1" }

/-- Resource data of a fresh zone about to be created (no ID yet). -/
def dFresh : ResourceData :=
  { id := "", name := "zone1.example.com.", email := "admin@example.com",
    ttl := 300, description := "", masters := [], attributes := [],
    region := "RegionOne", projectID := "", ztype := "PRIMARY",
    valueSpecs := [], disableStatusCheck := false,
    timeoutCreate := defaultZoneTimeout, timeoutUpdate := defaultZoneTimeout,
    timeoutDelete := defaultZoneTimeout, changeEmail := false,
    changeTTL := false, changeMasters := false, changeDescription := false }

/-- Resource data with status checks disabled and a changed email field. -/
def dSkip : ResourceData :=
  { dFresh with disableStatusCheck := true, changeEmail := true }

/-- Resource data of an existing zone with a changed email field. -/
def dUpd : ResourceData :=
  { dFresh with id := "z1", changeEmail := true }

/-- Resource data whose create timeout (2 seconds) is below the fixed
5-second delay of the StateChangeConf literals. -/
def dSmallTimeout : ResourceData :=
  { dFresh with timeoutCreate := 2 }

/-- A client oracle on which every operation succeeds. -/
def clientOk : Client :=
  { region := "RegionOne", clientErr := none, authErr := none,
    createZone := fun _ => Except.ok zoneZ1,
    getZone := fun _ => Except.ok zoneZ1,
    updateZone := fun _ _ => Except.ok zoneZ1,
    deleteZone := fun _ => none,
    waitRetryWrapped := fun _ _ => none,
    waitDirect := fun _ _ => none }

/-- A client whose Delete always reports NotFound. -/
def clientNotFoundDelete : Client :=
  { clientOk with deleteZone := fun _ => some GoErr.notFound }

/-- A client whose Delete fails with a non-NotFound error. -/
def clientDeleteErr : Client :=
  { clientOk with deleteZone := fun _ => some (GoErr.other "internal server error") }

/-- A client on which both wait entry points fail (polling timeout). -/
def clientPollFails : Client :=
  { clientOk with
    waitRetryWrapped := fun _ _ => some (GoErr.other "timeout while waiting for state to become ACTIVE"),
    waitDirect := fun _ _ => some (GoErr.other "timeout while waiting for state to become ACTIVE") }

/-- A client on which the RetryContext wrapped wait succeeds while the
direct wait fails: the two SDK entry points behave differently (for one, a
retryable wait error is retried by the wrapper and fatal for the direct
call), so such a client is realizable. -/
def clientSplitWait : Client :=
  { clientOk with
    waitDirect := fun _ _ => some (GoErr.other "context deadline exceeded") }

example : goSplit "z1:" ':' = ["z1", ""] := by decide

example : importOk { id := "z1:p1", projectID := "" } = true := by decide

example : importOk { id := "a:b:c", projectID := "" } = false := by decide

example : importOk { id := ":p", projectID := "" } = false := by decide

example :
    (resourceDNSZoneV2Create dFresh clientOk).2.2 =
      [Call.create, Call.pollRetryWrapped (createStateConf defaultZoneTimeout),
       Call.read] := by decide

example : (resourceDNSZoneV2Create dFresh clientOk).2.1.id = "z1" := by decide

example : (resourceDNSZoneV2Create dFresh clientPollFails).2.1.id = "" := by
  decide

example : (resourceDNSZoneV2Update dUpd clientOk).2.2 =
    [Call.update, Call.pollDirect (updateStateConf defaultZoneTimeout),
     Call.read] := by decide

example : (resourceDNSZoneV2Delete dUpd clientNotFoundDelete).1 = none := by
  decide

example : (resourceDNSZoneV2Delete dUpd clientNotFoundDelete).2.1.id = "" := by
  decide

/-- The read handler performs no remote call (client or auth-header failure)
or exactly one Get. -/
theorem read_log_cases (d : ResourceData) (c : Client) :
    (resourceDNSZoneV2Read d c).2.2 = [] ∨
    (resourceDNSZoneV2Read d c).2.2 = [Call.read] := by
  unfold resourceDNSZoneV2Read
  rcases hc : c.clientErr with _ | e
  · rcases ha : c.authErr with _ | e
    · rcases hg : c.getZone d.id with e | n
      · right; rfl
      · right; rfl
    · left; rfl
  · left; rfl

/-- Every call log of the create handler is one of: empty (client or auth
failure), a lone Create (zones.Create failed), Create followed by the read
log (status check skipped), Create plus one RetryContext wrapped poll on the
create configuration (wait failed), or that poll followed by the read log. -/
theorem create_log_shape (d : ResourceData) (c : Client) :
    ∃ r, (r = [] ∨ r = [Call.read]) ∧
      ((resourceDNSZoneV2Create d c).2.2 = [] ∨
       (resourceDNSZoneV2Create d c).2.2 = [Call.create] ∨
       (resourceDNSZoneV2Create d c).2.2 = Call.create :: r ∨
       (resourceDNSZoneV2Create d c).2.2 =
         [Call.create, Call.pollRetryWrapped (createStateConf d.timeoutCreate)] ∨
       (resourceDNSZoneV2Create d c).2.2 =
         Call.create :: Call.pollRetryWrapped (createStateConf d.timeoutCreate) :: r) := by
  unfold resourceDNSZoneV2Create
  dsimp only
  rcases hc : c.clientErr with _ | e
  · rcases ha : c.authErr with _ | e
    · rcases hcr : c.createZone (zoneCreateOptsOf d) with e | n
      · exact ⟨[], Or.inl rfl, Or.inr (Or.inl rfl)⟩
      · by_cases hd : d.disableStatusCheck
        · refine ⟨(resourceDNSZoneV2Read { d with id := n.ID } c).2.2,
            read_log_cases _ c, ?_⟩
          simp [hd]
        · rcases hw : c.waitRetryWrapped (createStateConf d.timeoutCreate) n.ID with _ | e
          · refine ⟨(resourceDNSZoneV2Read { d with id := n.ID } c).2.2,
              read_log_cases _ c, ?_⟩
            simp [hd, hw]
          · refine ⟨[], Or.inl rfl, ?_⟩
            simp [hd, hw]
    · exact ⟨[], Or.inl rfl, Or.inl rfl⟩
  · exact ⟨[], Or.inl rfl, Or.inl rfl⟩

/-- Every call log of the update handler is one of: empty, the read log
(no-op short circuit), a lone Update (zones.Update failed), Update followed
by the read log (status check skipped), Update plus one direct poll on the
update configuration (wait failed), or that poll followed by the read log. -/
theorem update_log_shape (d : ResourceData) (c : Client) :
    ∃ r, (r = [] ∨ r = [Call.read]) ∧
      ((resourceDNSZoneV2Update d c).2.2 = [] ∨
       (resourceDNSZoneV2Update d c).2.2 = r ∨
       (resourceDNSZoneV2Update d c).2.2 = [Call.update] ∨
       (resourceDNSZoneV2Update d c).2.2 = Call.update :: r ∨
       (resourceDNSZoneV2Update d c).2.2 =
         [Call.update, Call.pollDirect (updateStateConf d.timeoutUpdate)] ∨
       (resourceDNSZoneV2Update d c).2.2 =
         Call.update :: Call.pollDirect (updateStateConf d.timeoutUpdate) :: r) := by
  unfold resourceDNSZoneV2Update
  dsimp only
  rcases hc : c.clientErr with _ | e
  · by_cases hch : (updateOptsChanged d).2 = false
    · refine ⟨(resourceDNSZoneV2Read d c).2.2, read_log_cases d c, ?_⟩
      simp [hch]
    · rcases ha : c.authErr with _ | e
      · rcases hu : c.updateZone d.id (updateOptsChanged d).1 with e | z
        · refine ⟨[], Or.inl rfl, ?_⟩
          simp [hch, hu]
        · by_cases hd : d.disableStatusCheck
          · refine ⟨(resourceDNSZoneV2Read d c).2.2, read_log_cases d c, ?_⟩
            simp [hch, hu, hd]
          · rcases hw : c.waitDirect (updateStateConf d.timeoutUpdate) d.id with _ | e
            · refine ⟨(resourceDNSZoneV2Read d c).2.2, read_log_cases d c, ?_⟩
              simp [hch, hu, hd, hw]
            · refine ⟨[], Or.inl rfl, ?_⟩
              simp [hch, hu, hd, hw]
      · refine ⟨[], Or.inl rfl, ?_⟩
        simp [hch, ha]
  · exact ⟨[], Or.inl rfl, Or.inl rfl⟩

/-- Every call log of the delete handler is one of: empty, a lone Delete
(zones.Delete failed — including NotFound treated as success — or status
check skipped), or Delete plus one direct poll on the delete
configuration. -/
theorem delete_log_shape (d : ResourceData) (c : Client) :
    (resourceDNSZoneV2Delete d c).2.2 = [] ∨
    (resourceDNSZoneV2Delete d c).2.2 = [Call.delete] ∨
    (resourceDNSZoneV2Delete d c).2.2 =
      [Call.delete, Call.pollDirect (deleteStateConf d.timeoutDelete)] := by
  unfold resourceDNSZoneV2Delete
  dsimp only
  rcases hc : c.clientErr with _ | e
  · rcases ha : c.authErr with _ | e
    · rcases hdel : c.deleteZone d.id with _ | e
      · by_cases hd : d.disableStatusCheck
        · simp [hd]
        · rcases hw : c.waitDirect (deleteStateConf d.timeoutDelete) d.id with _ | e
          · simp [hd, hw]
          · simp [hd, hw]
      · simp
    · left; rfl
  · left; rfl

/-- The create handler never performs a direct wait, and every poll in its
log is the RetryContext wrapped wait on the create configuration. -/
theorem create_poll_calls (d : ResourceData) (c : Client) :
    ((resourceDNSZoneV2Create d c).2.2.all fun call => ! call.isPollDirect) = true ∧
    ((pollConfsOf (resourceDNSZoneV2Create d c).2.2).all
      fun conf => decide (conf = createStateConf d.timeoutCreate)) = true := by
  obtain ⟨r, hr, hshape⟩ := create_log_shape d c
  rcases hr with hr | hr <;> rcases hshape with h | h | h | h | h <;>
    simp [h, hr, pollConfsOf, Call.pollConf, Call.isPollDirect]

/-- The update handler never performs a RetryContext wrapped wait, and every
poll in its log is the direct wait on the update configuration. -/
theorem update_poll_calls (d : ResourceData) (c : Client) :
    ((resourceDNSZoneV2Update d c).2.2.all fun call => ! call.isPollRetryWrapped) = true ∧
    ((pollConfsOf (resourceDNSZoneV2Update d c).2.2).all
      fun conf => decide (conf = updateStateConf d.timeoutUpdate)) = true := by
  obtain ⟨r, hr, hshape⟩ := update_log_shape d c
  rcases hr with hr | hr <;> rcases hshape with h | h | h | h | h | h <;>
    simp [h, hr, pollConfsOf, Call.pollConf, Call.isPollRetryWrapped]

/-- Every poll in the delete handler log is the direct wait on the delete
configuration. -/
theorem delete_poll_calls (d : ResourceData) (c : Client) :
    ((pollConfsOf (resourceDNSZoneV2Delete d c).2.2).all
      fun conf => decide (conf = deleteStateConf d.timeoutDelete)) = true := by
  rcases delete_log_shape d c with h | h | h <;>
    simp [h, pollConfsOf, Call.pollConf]

/-- Claim C1 is false as stated: on a concrete run where zones.Create
succeeds with ID z1 but the wrapped wait fails, the create handler returns a
diagnostic while the resource ID of the returned data is still empty — the
partially created zone is left without an ID, not tracked. -/
theorem create_poll_error_id_unassigned_cex :
    clientPollFails.createZone (zoneCreateOptsOf dFresh) = Except.ok zoneZ1 ∧
    zoneZ1.ID = "z1" ∧
    (resourceDNSZoneV2Create dFresh clientPollFails).1.isSome = true ∧
    (resourceDNSZoneV2Create dFresh clientPollFails).2.1.id = "" :=
  ⟨rfl, rfl, by decide, by decide⟩

/-- Claim C1 (amended): when zones.Create succeeds but the polling phase
fails, the create handler fails with a diagnostic and returns the resource
data unchanged — in particular the returned ID is NOT assigned, because
SetId runs only after a successful wait (or when status checks are
skipped); the caller is left without a handle on the created zone. -/
theorem create_poll_error_fails_without_assigning_id (d : ResourceData)
    (c : Client) (z : Zone) (e : GoErr)
    (hc : c.clientErr = none) (ha : c.authErr = none)
    (hcr : c.createZone (zoneCreateOptsOf d) = Except.ok z)
    (hskip : d.disableStatusCheck = false)
    (hw : c.waitRetryWrapped (createStateConf d.timeoutCreate) z.ID = some e) :
    (resourceDNSZoneV2Create d c).1.isSome = true ∧
    (resourceDNSZoneV2Create d c).2.1 = d := by
  unfold resourceDNSZoneV2Create
  dsimp only
  simp [hc, ha, hcr, hskip, hw]

/-- Witness for the amended C1 at a concrete fresh zone and client. -/
theorem create_poll_error_fails_without_assigning_id_witness :
    clientPollFails.clientErr = none ∧
    dFresh.disableStatusCheck = false ∧
    ((resourceDNSZoneV2Create dFresh clientPollFails).1.isSome = true ∧
     (resourceDNSZoneV2Create dFresh clientPollFails).2.1 = dFresh) :=
  ⟨rfl, rfl,
   create_poll_error_fails_without_assigning_id dFresh clientPollFails zoneZ1
     (GoErr.other "timeout while waiting for state to become ACTIVE")
     rfl rfl rfl rfl rfl⟩

/-- Claim C2 is false as stated: the create handler accepts a 2-second
create timeout and runs the polling machinery on a configuration whose
timeout is below its fixed 5-second delay; nothing rejects it. -/
theorem stateConf_accepts_timeout_below_delay_cex :
    Call.pollRetryWrapped (createStateConf 2) ∈
      (resourceDNSZoneV2Create dSmallTimeout clientOk).2.2 ∧
    (createStateConf 2).Timeout < (createStateConf 2).Delay := by decide

/-- Claim C2 (amended): constructing the polling configuration is a total
struct literal with no validation and no error path; every constructed
configuration has a positive minimum inter-poll interval (MinTimeout 3) and
a fixed 5-second delay, so timeout at least delay holds exactly when the
configured timeout is at least 5 seconds — true at the 10-minute default,
violated when the caller overrides the timeout below 5 seconds. -/
theorem stateConf_construction_never_rejects :
    (∀ t, 0 < (createStateConf t).MinTimeout ∧ (createStateConf t).Delay = 5 ∧
      ((createStateConf t).Delay ≤ (createStateConf t).Timeout ↔ 5 ≤ t)) ∧
    (∀ t, 0 < (updateStateConf t).MinTimeout ∧ (updateStateConf t).Delay = 5 ∧
      ((updateStateConf t).Delay ≤ (updateStateConf t).Timeout ↔ 5 ≤ t)) ∧
    (∀ t, 0 < (deleteStateConf t).MinTimeout ∧ (deleteStateConf t).Delay = 5 ∧
      ((deleteStateConf t).Delay ≤ (deleteStateConf t).Timeout ↔ 5 ≤ t)) ∧
    (createStateConf defaultZoneTimeout).Delay ≤
      (createStateConf defaultZoneTimeout).Timeout ∧
    (deleteStateConf defaultZoneTimeout).Delay ≤
      (deleteStateConf defaultZoneTimeout).Timeout :=
  ⟨fun _ => ⟨(by decide : (0 : Nat) < 3), rfl, Iff.rfl⟩,
   fun _ => ⟨(by decide : (0 : Nat) < 3), rfl, Iff.rfl⟩,
   fun _ => ⟨(by decide : (0 : Nat) < 3), rfl, Iff.rfl⟩,
   by decide, by decide⟩

/-- Claim C3 is false as stated: on one client where the RetryContext
wrapped wait succeeds and the direct wait fails, Create polls to success
while Update — same resource, same timeout, same target and pending states —
fails; the two handlers do not use the same retry wrapping of the wait. -/
theorem update_create_wait_entry_differs_cex :
    (resourceDNSZoneV2Create dFresh clientSplitWait).1 = none ∧
    (resourceDNSZoneV2Update dUpd clientSplitWait).1.isSome = true ∧
    dFresh.timeoutCreate = dUpd.timeoutUpdate ∧
    Call.pollRetryWrapped (createStateConf defaultZoneTimeout) ∈
      (resourceDNSZoneV2Create dFresh clientSplitWait).2.2 ∧
    Call.pollDirect (updateStateConf defaultZoneTimeout) ∈
      (resourceDNSZoneV2Update dUpd clientSplitWait).2.2 := by decide

/-- Claim C3 (amended): Update polls with the identical StateChangeConf as
Create (same target and pending states, delay, minimum interval, and the
per-operation timeout in place of the create one), but the wait invocation
differs: Create only ever uses the RetryContext wrapped WaitForState while
Update only ever uses the direct WaitForStateContext, as the concrete runs
show; and whenever both phases fail at the wait with the same underlying
cause on the same resource data, the failure diagnostics are the identical
string. -/
theorem update_polling_same_conf_different_wait :
    (∀ t, updateStateConf t = createStateConf t) ∧
    (∀ d c, ((resourceDNSZoneV2Create d c).2.2.all
        fun call => ! call.isPollDirect) = true) ∧
    (∀ d c, ((resourceDNSZoneV2Update d c).2.2.all
        fun call => ! call.isPollRetryWrapped) = true) ∧
    (∀ (d : ResourceData) (c : Client) (z : Zone) (e : GoErr),
      c.clientErr = none → c.authErr = none →
      c.createZone (zoneCreateOptsOf d) = Except.ok z →
      d.disableStatusCheck = false →
      c.waitRetryWrapped (createStateConf d.timeoutCreate) z.ID = some e →
      (updateOptsChanged d).2 = true →
      c.updateZone d.id (updateOptsChanged d).1 = Except.ok z →
      c.waitDirect (updateStateConf d.timeoutUpdate) d.id = some e →
      (resourceDNSZoneV2Create d c).1 = (resourceDNSZoneV2Update d c).1) ∧
    (resourceDNSZoneV2Create dFresh clientOk).2.2 =
      [Call.create, Call.pollRetryWrapped (createStateConf defaultZoneTimeout),
       Call.read] ∧
    (resourceDNSZoneV2Update dUpd clientOk).2.2 =
      [Call.update, Call.pollDirect (updateStateConf defaultZoneTimeout),
       Call.read] :=
  ⟨fun _ => rfl,
   fun d c => (create_poll_calls d c).1,
   fun d c => (update_poll_calls d c).1,
   fun d c z e hc ha hcr hskip hw hch hu hwd => by
     unfold resourceDNSZoneV2Create resourceDNSZoneV2Update
     dsimp only
     simp [hc, ha, hcr, hskip, hw, hch, hu, hwd],
   by decide, by decide⟩

/-- Witness for the amended C3: on one resource and client both phases fail
at the wait with the same cause and return the identical diagnostic. -/
theorem update_polling_same_conf_different_wait_witness :
    dUpd.disableStatusCheck = false ∧
    (updateOptsChanged dUpd).2 = true ∧
    (resourceDNSZoneV2Create dUpd clientPollFails).1 =
      (resourceDNSZoneV2Update dUpd clientPollFails).1 :=
  ⟨rfl, by decide,
   update_polling_same_conf_different_wait.2.2.2.1 dUpd clientPollFails zoneZ1
     (GoErr.other "timeout while waiting for state to become ACTIVE")
     rfl rfl rfl rfl rfl (by decide) rfl rfl⟩

/-- Claim C4: an update touching none of email, ttl, masters, description
never calls zones.Update and returns exactly the result of the read
handler. -/
theorem noop_update_skips_remote_update (d : ResourceData) (c : Client)
    (h1 : d.changeEmail = false) (h2 : d.changeTTL = false)
    (h3 : d.changeMasters = false) (h4 : d.changeDescription = false) :
    resourceDNSZoneV2Update d c = resourceDNSZoneV2Read d c ∧
    Call.update ∉ (resourceDNSZoneV2Update d c).2.2 := by
  have hch : (updateOptsChanged d).2 = false := by
    unfold updateOptsChanged
    simp [h1, h2, h3, h4]
  have heq : resourceDNSZoneV2Update d c = resourceDNSZoneV2Read d c := by
    unfold resourceDNSZoneV2Update
    dsimp only
    rcases hc : c.clientErr with _ | e
    · simp [hch]
    · unfold resourceDNSZoneV2Read
      simp [hc]
  refine ⟨heq, ?_⟩
  rw [heq]
  rcases read_log_cases d c with h | h <;> simp [h]

/-- Witness for C4 at a concrete no-change update. -/
theorem noop_update_skips_remote_update_witness :
    dFresh.changeEmail = false ∧ dFresh.changeTTL = false ∧
    dFresh.changeMasters = false ∧ dFresh.changeDescription = false ∧
    (resourceDNSZoneV2Update dFresh clientOk = resourceDNSZoneV2Read dFresh clientOk ∧
     Call.update ∉ (resourceDNSZoneV2Update dFresh clientOk).2.2) :=
  ⟨rfl, rfl, rfl, rfl,
   noop_update_skips_remote_update dFresh clientOk rfl rfl rfl rfl⟩

/-- Claim C5: a NotFound error from zones.Delete is success without polling;
deleting twice on an already absent ID succeeds both times; a non-NotFound
delete error fails immediately (one Delete call, no polling). -/
theorem delete_notfound_success_idempotent (d : ResourceData)
    (c cf : Client) (m : String)
    (hc : c.clientErr = none) (ha : c.authErr = none)
    (hdel : ∀ s, c.deleteZone s = some GoErr.notFound)
    (hcf : cf.clientErr = none) (haf : cf.authErr = none)
    (hdelf : cf.deleteZone d.id = some (GoErr.other m)) :
    (resourceDNSZoneV2Delete d c).1 = none ∧
    (resourceDNSZoneV2Delete d c).2.2 = [Call.delete] ∧
    (resourceDNSZoneV2Delete (resourceDNSZoneV2Delete d c).2.1 c).1 = none ∧
    (resourceDNSZoneV2Delete d cf).1.isSome = true ∧
    (resourceDNSZoneV2Delete d cf).2.2 = [Call.delete] := by
  have key : ∀ d2 : ResourceData, (resourceDNSZoneV2Delete d2 c).1 = none ∧
      (resourceDNSZoneV2Delete d2 c).2.2 = [Call.delete] := by
    intro d2
    unfold resourceDNSZoneV2Delete
    dsimp only
    simp [hc, ha, hdel d2.id, CheckDeleted]
  have keyf : (resourceDNSZoneV2Delete d cf).1.isSome = true ∧
      (resourceDNSZoneV2Delete d cf).2.2 = [Call.delete] := by
    unfold resourceDNSZoneV2Delete
    dsimp only
    simp [hcf, haf, hdelf, CheckDeleted]
  exact ⟨(key d).1, (key d).2, (key _).1, keyf.1, keyf.2⟩

/-- Witness for C5 at a concrete zone with NotFound and failing delete
clients. -/
theorem delete_notfound_success_idempotent_witness :
    clientNotFoundDelete.deleteZone dUpd.id = some GoErr.notFound ∧
    ((resourceDNSZoneV2Delete dUpd clientNotFoundDelete).1 = none ∧
     (resourceDNSZoneV2Delete dUpd clientNotFoundDelete).2.2 = [Call.delete] ∧
     (resourceDNSZoneV2Delete
        (resourceDNSZoneV2Delete dUpd clientNotFoundDelete).2.1
        clientNotFoundDelete).1 = none ∧
     (resourceDNSZoneV2Delete dUpd clientDeleteErr).1.isSome = true ∧
     (resourceDNSZoneV2Delete dUpd clientDeleteErr).2.2 = [Call.delete]) :=
  ⟨rfl,
   delete_notfound_success_idempotent dUpd clientNotFoundDelete clientDeleteErr
     "internal server error" rfl rfl (fun _ => rfl) rfl rfl rfl⟩

/-- Claim C6: with disable_status_check set, whenever the initial client
call of a phase succeeds that phase performs exactly one Create plus one
immediate Read, exactly one Update (for any delta that touches a mutable
field) plus one immediate Read, or exactly one Delete — no polling
anywhere. -/
theorem skip_status_check_single_calls (d : ResourceData) (c : Client)
    (hc : c.clientErr = none) (ha : c.authErr = none)
    (hskip : d.disableStatusCheck = true) :
    (∀ z, c.createZone (zoneCreateOptsOf d) = Except.ok z →
      (resourceDNSZoneV2Create d c).2.2 = [Call.create, Call.read]) ∧
    ((updateOptsChanged d).2 = true →
      ∀ z, c.updateZone d.id (updateOptsChanged d).1 = Except.ok z →
        (resourceDNSZoneV2Update d c).2.2 = [Call.update, Call.read]) ∧
    (c.deleteZone d.id = none →
      (resourceDNSZoneV2Delete d c).2.2 = [Call.delete]) := by
  have hreadlog : ∀ d1 : ResourceData,
      (resourceDNSZoneV2Read d1 c).2.2 = [Call.read] := by
    intro d1
    unfold resourceDNSZoneV2Read
    rcases hg : c.getZone d1.id with e | n <;> simp [hc, ha, hg]
  refine ⟨?_, ?_, ?_⟩
  · intro z hcr
    unfold resourceDNSZoneV2Create
    dsimp only
    simp [hc, ha, hcr, hskip, hreadlog]
  · intro hchanged z hu
    unfold resourceDNSZoneV2Update
    dsimp only
    simp [hc, ha, hchanged, hu, hskip, hreadlog]
  · intro hdel
    unfold resourceDNSZoneV2Delete
    dsimp only
    simp [hc, ha, hdel, hskip]

/-- Witness for C6 at a concrete resource with status checks disabled. -/
theorem skip_status_check_single_calls_witness :
    dSkip.disableStatusCheck = true ∧
    (updateOptsChanged dSkip).2 = true ∧
    ((resourceDNSZoneV2Create dSkip clientOk).2.2 = [Call.create, Call.read] ∧
     (resourceDNSZoneV2Update dSkip clientOk).2.2 = [Call.update, Call.read] ∧
     (resourceDNSZoneV2Delete dSkip clientOk).2.2 = [Call.delete]) :=
  ⟨rfl, by decide,
   (skip_status_check_single_calls dSkip clientOk rfl rfl rfl).1 zoneZ1 rfl,
   (skip_status_check_single_calls dSkip clientOk rfl rfl rfl).2.1
     (by decide) zoneZ1 rfl,
   (skip_status_check_single_calls dSkip clientOk rfl rfl rfl).2.2 rfl⟩

/-- Claim C7: import succeeds exactly when splitting the import string on a
colon yields a non-empty first segment and at most two segments; every other
shape is rejected with the format error. -/
theorem import_succeeds_iff_wellformed (d : ImportData) :
    importOk d = true ↔
      ((goSplit d.id ':').headD "" ≠ "" ∧ (goSplit d.id ':').length ≤ 2) := by
  unfold importOk dnsZoneV2ImportState
  rcases h : goSplit d.id ':' with _ | ⟨p0, _ | ⟨p1, _ | ⟨p2, rest⟩⟩⟩
  · simp
  · by_cases hp : p0 = "" <;> simp [hp]
  · by_cases hp : p0 = "" <;> simp [hp]
  · simp

/-- Claim C8: the polling state machine configurations are exactly as the
spec states per phase — Create and Update poll with target ACTIVE and
pending PENDING, Delete with target DELETED and pending ACTIVE, PENDING —
and every poll any handler performs carries the configuration of its own
phase. -/
theorem poll_configs_match_phase :
    (∀ t, (createStateConf t).Target = ["ACTIVE"] ∧
          (createStateConf t).Pending = ["PENDING"]) ∧
    (∀ t, (updateStateConf t).Target = ["ACTIVE"] ∧
          (updateStateConf t).Pending = ["PENDING"]) ∧
    (∀ t, (deleteStateConf t).Target = ["DELETED"] ∧
          (deleteStateConf t).Pending = ["ACTIVE", "PENDING"]) ∧
    (∀ d c, ((pollConfsOf (resourceDNSZoneV2Create d c).2.2).all
        fun conf => decide (conf = createStateConf d.timeoutCreate)) = true) ∧
    (∀ d c, ((pollConfsOf (resourceDNSZoneV2Update d c).2.2).all
        fun conf => decide (conf = updateStateConf d.timeoutUpdate)) = true) ∧
    (∀ d c, ((pollConfsOf (resourceDNSZoneV2Delete d c).2.2).all
        fun conf => decide (conf = deleteStateConf d.timeoutDelete)) = true) :=
  ⟨fun _ => ⟨rfl, rfl⟩, fun _ => ⟨rfl, rfl⟩, fun _ => ⟨rfl, rfl⟩,
   fun d c => (create_poll_calls d c).2,
   fun d c => (update_poll_calls d c).2,
   fun d c => delete_poll_calls d c⟩

/-- Claim C9: a non-empty ID followed by a single trailing colon is
accepted; project_id is set to the empty second segment and the resource ID
to the part before the colon. -/
theorem import_trailing_colon_accepted (d : ImportData) (p : String)
    (hp : p ≠ "") (h : goSplit d.id ':' = [p, ""]) :
    dnsZoneV2ImportState d = Except.ok { d with id := p, projectID := "" } := by
  unfold dnsZoneV2ImportState
  simp [h, hp]

/-- Witness for C9 at the concrete import string with a trailing colon. -/
theorem import_trailing_colon_accepted_witness :
    goSplit "z1:" ':' = ["z1", ""] ∧
    dnsZoneV2ImportState { id := "z1:", projectID := "old" } =
      Except.ok { id := "z1", projectID := "" } :=
  ⟨by decide,
   import_trailing_colon_accepted { id := "z1:", projectID := "old" } "z1"
     (by decide) (by decide)⟩

end ViettelDNS

namespace ViettelAux

/-- Claim C10: for the auxiliary server and kubernetes resources, Delete
always clears the ID and returns no diagnostics, and Read (hence the read
step of Create and Update) always returns no diagnostics and leaves the
state unchanged, for every input state. -/
theorem aux_delete_clears_id_read_total (d : ServerData) (k : KubernetesData) :
    resourceServerDelete d = (none, { d with id := "" }) ∧
    resourceServerRead d = (none, d) ∧
    resourceServerUpdate d = (none, d) ∧
    resourceKubernetesDelete k = (none, { k with id := "" }) ∧
    resourceKubernetesRead k = (none, k) ∧
    resourceKubernetesUpdate k = (none, k) :=
  ⟨rfl, rfl, rfl, rfl, rfl, rfl⟩

end ViettelAux
